import Mathlib

/-!
Verification of `src/model.py` of duysoftware/Expression-ID: a Keras
training script for a residual mini-Xception facial-emotion classifier.
The script is embedded shallowly: module-level constants become Lean
constants, the straight-line graph construction becomes a straight-line
construction of an explicit layer graph, the try/except blocks become
functions over an environment recording which file loads succeed, and the
Keras 2.x callback semantics (ModelCheckpoint, EarlyStopping,
ReduceLROnPlateau) become explicit step functions over rational losses.
-/

namespace ExpressionID

/-! ## Script-level parameters (model.py lines 25-35) -/

def batch_size : Nat := 32

def num_epochs : Nat := 250

def num_classes : Nat := 7

def wait_time : Nat := 50

/-- The l2 regularization coefficient `l2(0.01)` (model.py line 31). -/
def regularization : ℚ := 1/100

/-- The `fine_tune` flag, hard-coded to `True` (model.py line 35). -/
def fine_tune : Bool := true

/-! ## Dataset loading and caching (model.py lines 37-64)

The module-level try/except loads six cached numpy arrays; on any
exception it rebuilds all three splits via `utils.load_data` and
re-saves them via `utils.save_data`.  Arrays are abstract values of a
type `α`; the environment records, for each path, whether `np.load`
succeeds and with what value, and what `utils.load_data` returns. -/

/-- An environment for the data-preparation step: `npLoad p` is `some a`
when `np.load(p)` returns array `a` and `none` when it raises, and
`loadData u` is the pair of arrays `utils.load_data` produces for usage
tag `u`.

`loadData` is Modelled from the spec: the file `utils.py` is imported by
`model.py` but absent from the sources; per the spec it "returns image
and label arrays for that split" given the class list, CSV path and
usage tag, so it is kept as an abstract function of the usage tag. -/
structure DataEnv (α : Type) where
  npLoad : String → Option α
  loadData : String → α × α
  alen : α → Nat

/-- The six cached-array paths in the order the script loads them
(model.py lines 39-44). -/
def cachePaths : List String :=
  ["data/X_train.npy", "data/Y_train.npy", "data/X_val.npy",
   "data/Y_val.npy", "data/X_test.npy", "data/Y_test.npy"]

/-- The result of the data-preparation step: the six arrays bound by the
script, the list of `utils.save_data` calls performed (tag with the
array pair saved under it), and whether the cached arrays were used. -/
structure DataResult (α : Type) where
  xTrain : α
  yTrain : α
  xVal : α
  yVal : α
  xTest : α
  yTest : α
  saved : List (String × α × α)
  usedCache : Bool
  deriving Repr, DecidableEq

/-- The try-block of model.py lines 38-45: the six `np.load` calls in
order; the first raising call aborts the block. -/
def tryLoadCache (env : DataEnv α) : Option (α × α × α × α × α × α) := do
  let xt ← env.npLoad "data/X_train.npy"
  let yt ← env.npLoad "data/Y_train.npy"
  let xv ← env.npLoad "data/X_val.npy"
  let yv ← env.npLoad "data/Y_val.npy"
  let xs ← env.npLoad "data/X_test.npy"
  let ys ← env.npLoad "data/Y_test.npy"
  pure (xt, yt, xv, yv, xs, ys)

/-- The except-branch of model.py lines 46-64: rebuild all three splits
from the CSV via `utils.load_data` and re-save all of them. -/
def regenerateData (env : DataEnv α) : DataResult α :=
  let tr := env.loadData "Training"
  let va := env.loadData "PublicTest"
  let te := env.loadData "PrivateTest"
  { xTrain := tr.1, yTrain := tr.2, xVal := va.1, yVal := va.2,
    xTest := te.1, yTest := te.2,
    saved := [("train", tr.1, tr.2), ("val", va.1, va.2),
              ("test", te.1, te.2)],
    usedCache := false }

/-- The whole data-preparation step (model.py lines 38-64). -/
def prepareData (env : DataEnv α) : DataResult α :=
  match tryLoadCache env with
  | some (xt, yt, xv, yv, xs, ys) =>
      { xTrain := xt, yTrain := yt, xVal := xv, yVal := yv,
        xTest := xs, yTest := ys, saved := [], usedCache := true }
  | none => regenerateData env

/-- All six cached files load successfully in `env`. -/
def allCacheLoadsOk (env : DataEnv α) : Prop :=
  ∀ p ∈ cachePaths, (env.npLoad p).isSome

instance (env : DataEnv α) : Decidable (allCacheLoadsOk env) := by
  unfold allCacheLoadsOk; infer_instance

/-! ## Mini-Xception architecture (model.py lines 75-157)

Keras layers are values of `LayerSpec`; the functional-API graph is a
list of nodes, each applying a layer to an earlier node or adding two
earlier nodes (`layers.add`).  Nodes are listed in creation order, which
for this straight-line script is a topological order of the graph. -/

/-- A keras layer as configured by the script.  Fields record exactly
the arguments model.py passes, with keras defaults filled in
(`padding='valid'`, `strides=(1,1)`, `use_bias=True`, no regularizer):
filter count, kernel size, strides, same-padding flag, the l2
coefficient of the kernel regularizer if any, and the use_bias flag. -/
inductive LayerSpec : Type
  | conv2D (filters : Nat) (kernel : Nat × Nat) (strides : Nat × Nat)
      (samePadding : Bool) (kernelRegularizer : Option ℚ) (useBias : Bool)
  | batchNormalization
  | activation (fn : String)
  | separableConv2D (filters : Nat) (kernel : Nat × Nat) (strides : Nat × Nat)
      (samePadding : Bool) (kernelRegularizer : Option ℚ) (useBias : Bool)
  | maxPooling2D (pool : Nat × Nat) (strides : Nat × Nat) (samePadding : Bool)
  | globalAveragePooling2D
  deriving Repr, DecidableEq

/-- A node of the functional-API graph: the `Input` tensor, a layer
applied to the tensor produced by an earlier node (named by its index),
or the elementwise `layers.add` of two earlier nodes. -/
inductive Node : Type
  | input (shape : Nat × Nat × Nat)
  | apply (l : LayerSpec) (src : Nat)
  | add (a b : Nat)
  deriving Repr, DecidableEq

/-- Appends a node to the graph and returns its index, mirroring one
layer-call line of the script. -/
def push (g : List Node) (n : Node) : List Node × Nat :=
  (g ++ [n], g.length)

/-- The graph built by model.py lines 76-157, line by line; the second
component is the index of the `output` tensor.  (The final softmax
`Activation` carries the keras layer name `predictions`, which does not
affect the computation and is not modelled.) -/
def modelGraph : List Node × Nat :=
  let (g, img_input) := push [] (.input (48, 48, 1))
  let (g, x) := push g (.apply (.conv2D 8 (3, 3) (1, 1) false (some regularization) false) img_input)
  let (g, x) := push g (.apply .batchNormalization x)
  let (g, x) := push g (.apply (.activation "relu") x)
  let (g, x) := push g (.apply (.conv2D 8 (3, 3) (1, 1) false (some regularization) false) x)
  let (g, x) := push g (.apply .batchNormalization x)
  let (g, x) := push g (.apply (.activation "relu") x)
  -- Module 1
  let (g, residual) := push g (.apply (.conv2D 16 (1, 1) (2, 2) true none false) x)
  let (g, residual) := push g (.apply .batchNormalization residual)
  let (g, x) := push g (.apply (.separableConv2D 16 (3, 3) (1, 1) true (some regularization) false) x)
  let (g, x) := push g (.apply .batchNormalization x)
  let (g, x) := push g (.apply (.activation "relu") x)
  let (g, x) := push g (.apply (.separableConv2D 16 (3, 3) (1, 1) true (some regularization) false) x)
  let (g, x) := push g (.apply .batchNormalization x)
  let (g, x) := push g (.apply (.maxPooling2D (3, 3) (2, 2) true) x)
  let (g, x) := push g (.add x residual)
  -- Module 2
  let (g, residual) := push g (.apply (.conv2D 32 (1, 1) (2, 2) true none false) x)
  let (g, residual) := push g (.apply .batchNormalization residual)
  let (g, x) := push g (.apply (.separableConv2D 32 (3, 3) (1, 1) true (some regularization) false) x)
  let (g, x) := push g (.apply .batchNormalization x)
  let (g, x) := push g (.apply (.activation "relu") x)
  let (g, x) := push g (.apply (.separableConv2D 32 (3, 3) (1, 1) true (some regularization) false) x)
  let (g, x) := push g (.apply .batchNormalization x)
  let (g, x) := push g (.apply (.maxPooling2D (3, 3) (2, 2) true) x)
  let (g, x) := push g (.add x residual)
  -- Module 3
  let (g, residual) := push g (.apply (.conv2D 64 (1, 1) (2, 2) true none false) x)
  let (g, residual) := push g (.apply .batchNormalization residual)
  let (g, x) := push g (.apply (.separableConv2D 64 (3, 3) (1, 1) true (some regularization) false) x)
  let (g, x) := push g (.apply .batchNormalization x)
  let (g, x) := push g (.apply (.activation "relu") x)
  let (g, x) := push g (.apply (.separableConv2D 64 (3, 3) (1, 1) true (some regularization) false) x)
  let (g, x) := push g (.apply .batchNormalization x)
  let (g, x) := push g (.apply (.maxPooling2D (3, 3) (2, 2) true) x)
  let (g, x) := push g (.add x residual)
  -- Module 4
  let (g, residual) := push g (.apply (.conv2D 128 (1, 1) (2, 2) true none false) x)
  let (g, residual) := push g (.apply .batchNormalization residual)
  let (g, x) := push g (.apply (.separableConv2D 128 (3, 3) (1, 1) true (some regularization) false) x)
  let (g, x) := push g (.apply .batchNormalization x)
  let (g, x) := push g (.apply (.activation "relu") x)
  let (g, x) := push g (.apply (.separableConv2D 128 (3, 3) (1, 1) true (some regularization) false) x)
  let (g, x) := push g (.apply .batchNormalization x)
  let (g, x) := push g (.apply (.maxPooling2D (3, 3) (2, 2) true) x)
  let (g, x) := push g (.add x residual)
  -- Classification head
  let (g, x) := push g (.apply (.conv2D num_classes (3, 3) (1, 1) true none true) x)
  let (g, x) := push g (.apply .globalAveragePooling2D x)
  let (g, output) := push g (.apply (.activation "softmax") x)
  (g, output)

/-- The layer list of the built model (`model.layers`). -/
def model_layers : List Node := modelGraph.1

/-! ### The architecture as the spec words it

A second construction following the spec sentence: "two initial full
convolutions with normalization and activation, then four residual
blocks, each block computing a shortcut path (strided 1×1 convolution +
normalization) in parallel with a main path (two depthwise-separable
convolutions + normalization + activation + pooling), summed
elementwise; a final classification convolution, global average pooling,
and a softmax head."  Filter widths, which the spec leaves unnamed, are
parameters. -/

/-- Spec wording: a full convolution followed by batch normalization and
ReLU activation. -/
def specConvBnRelu (g : List Node) (t : Nat) (l : LayerSpec) : List Node × Nat :=
  let (g, t) := push g (.apply l t)
  let (g, t) := push g (.apply .batchNormalization t)
  push g (.apply (.activation "relu") t)

/-- Spec wording: one residual block, a shortcut path (strided 1×1
convolution plus batch normalization) in parallel with a main path (two
depthwise-separable convolutions with normalization, an activation
between them, and max pooling), summed elementwise. -/
def specResidualBlock (g : List Node) (t : Nat) (filters : Nat) : List Node × Nat :=
  let (g, shortcut) := push g (.apply (.conv2D filters (1, 1) (2, 2) true none false) t)
  let (g, shortcut) := push g (.apply .batchNormalization shortcut)
  let (g, m) := push g (.apply (.separableConv2D filters (3, 3) (1, 1) true (some regularization) false) t)
  let (g, m) := push g (.apply .batchNormalization m)
  let (g, m) := push g (.apply (.activation "relu") m)
  let (g, m) := push g (.apply (.separableConv2D filters (3, 3) (1, 1) true (some regularization) false) m)
  let (g, m) := push g (.apply .batchNormalization m)
  let (g, m) := push g (.apply (.maxPooling2D (3, 3) (2, 2) true) m)
  push g (.add m shortcut)

/-- Spec wording: the sequence of residual blocks, one per filter width. -/
def specResidualBlocks (g : List Node) (t : Nat) : List Nat → List Node × Nat
  | [] => (g, t)
  | f :: fs =>
      let (g, t) := specResidualBlock g t f
      specResidualBlocks g t fs

/-- Spec wording for the whole network: two initial full convolutions
each with normalization and ReLU activation, the residual blocks, then a
final classification convolution, global average pooling and a softmax
head. -/
def specArchitecture (stemFilters : Nat) (moduleFilters : List Nat)
    (nClasses : Nat) : List Node × Nat :=
  let (g, t) := push [] (.input (48, 48, 1))
  let (g, t) := specConvBnRelu g t (.conv2D stemFilters (3, 3) (1, 1) false (some regularization) false)
  let (g, t) := specConvBnRelu g t (.conv2D stemFilters (3, 3) (1, 1) false (some regularization) false)
  let (g, t) := specResidualBlocks g t moduleFilters
  let (g, t) := push g (.apply (.conv2D nClasses (3, 3) (1, 1) true none true) t)
  let (g, t) := push g (.apply .globalAveragePooling2D t)
  push g (.apply (.activation "softmax") t)

/-! ## Layer freezing (model.py lines 159-162) -/

/-- A layer together with its keras `trainable` attribute. -/
structure LayerState where
  layer : Node
  trainable : Bool
  deriving Repr, DecidableEq

/-- Keras layers are created with `trainable = True`. -/
def initLayers (g : List Node) : List LayerState :=
  g.map (fun n => { layer := n, trainable := true })

/-- The loop `for layer in model.layers[:10]: layer.trainable = False`
(model.py lines 161-162): sets `trainable` to false on the first `k`
layers and leaves the rest untouched. -/
def freezeFirst (k : Nat) (ls : List LayerState) : List LayerState :=
  (ls.take k).map (fun l => { l with trainable := false }) ++ ls.drop k

/-! ## Keras callbacks (model.py lines 176-186)

The script runs under keras 2.x (`fit_generator`, `keras.*` imports).
Validation losses are modelled as rationals; `np.Inf`, the initial best
value of the min-mode callbacks, is modelled as `none`. -/

/-- One epoch-end step of `ModelCheckpoint(..., 'val_loss',
save_best_only=True)`: with monitor `val_loss` the mode resolves to min
(`np.less`) and best starts at infinity, so the weights file is written
exactly when the current value is strictly below the best seen, which
then becomes the new best.  Returns the new best and whether the file
was written. -/
def checkpointStep (best : Option ℚ) (current : ℚ) : Option ℚ × Bool :=
  match best with
  | none => (some current, true)
  | some b => if current < b then (some current, true) else (some b, false)

/-- The per-epoch save decisions of the checkpoint callback over a run
with the given epoch-end validation losses. -/
def checkpointSaves : Option ℚ → List ℚ → List Bool
  | _, [] => []
  | best, l :: ls =>
      let s := checkpointStep best l
      s.2 :: checkpointSaves s.1 ls

/-- The state of `EarlyStopping('val_loss', patience=wait_time)`: best
value seen (none = infinity) and the wait counter. -/
structure ESState where
  best : Option ℚ
  wait : Nat
  deriving Repr, DecidableEq

/-- One epoch-end step of keras 2.x EarlyStopping with `min_delta = 0`:
a strict improvement resets the wait counter and updates the best;
otherwise the counter increments and training stops once it reaches the
patience.  Returns the new state and the stop-training flag. -/
def esStep (patience : Nat) (s : ESState) (current : ℚ) : ESState × Bool :=
  match s.best with
  | none => ({ best := some current, wait := 0 }, false)
  | some b =>
      if current < b then ({ best := some current, wait := 0 }, false)
      else
        let w := s.wait + 1
        ({ best := some b, wait := w }, decide (patience ≤ w))

/-- The EarlyStopping state at the start of epoch `k` of a run with the
given epoch-end validation losses. -/
def esStateAfter (patience : Nat) (losses : Nat → ℚ) : Nat → ESState
  | 0 => { best := none, wait := 0 }
  | k + 1 => (esStep patience (esStateAfter patience losses k) (losses k)).1

/-- The stop-training flag raised at the end of epoch `k`. -/
def esStopFlag (patience : Nat) (losses : Nat → ℚ) (k : Nat) : Bool :=
  (esStep patience (esStateAfter patience losses k) (losses k)).2

/-- The number of epochs the `fit` loop actually runs, starting at epoch
`e` in state `s` with `fuel` epochs remaining: the epoch whose callback
raises stop-training still completes, and no further epoch starts. -/
def epochsFrom (patience : Nat) (losses : Nat → ℚ) : Nat → ESState → Nat → Nat
  | _, _, 0 => 0
  | e, s, fuel + 1 =>
      let r := esStep patience s (losses e)
      if r.2 then 1 else 1 + epochsFrom patience losses (e + 1) r.1 fuel

/-- The number of epochs a training run with the given validation losses
executes: at most `num_epochs`, fewer when EarlyStopping fires. -/
def epochsRun (losses : Nat → ℚ) : Nat :=
  epochsFrom wait_time losses 0 { best := none, wait := 0 } num_epochs

/-- The configuration record of a ReduceLROnPlateau callback. -/
structure ReduceLRConfig where
  monitor : String
  factor : ℚ
  patience : Nat
  verbose : Nat
  minDelta : ℚ
  cooldown : Nat
  minLr : ℚ
  deriving Repr, DecidableEq

/-- The keras 2.x ReduceLROnPlateau constructor: a factor ≥ 1 raises
ValueError; the deprecated `epsilon` keyword argument overrides
min_delta; all other unknown keyword arguments are silently dropped;
patience defaults to 10, min_delta to 1e-4, cooldown to 0, min_lr
to 0. -/
def mkReduceLROnPlateau (monitor : String) (factor : ℚ) (verbose : Nat)
    (kwargs : List (String × ℚ)) : Except String ReduceLRConfig :=
  if 1 ≤ factor then
    Except.error "ReduceLROnPlateau does not support a factor >= 1.0."
  else
    Except.ok { monitor := monitor, factor := factor, patience := 10,
                verbose := verbose,
                minDelta := (kwargs.lookup "epsilon").getD (1/10000),
                cooldown := 0, minLr := 0 }

/-- Line 178-179 of model.py: `ReduceLROnPlateau('val_loss', factor=0.1,
wait_time=int(wait_time/4), verbose=1)`.  `wait_time` is not a parameter
of the callback, so it travels through the kwargs;
`int(wait_time/4) = 12`. -/
def reduce_lr : Except String ReduceLRConfig :=
  mkReduceLROnPlateau "val_loss" (1/10) 1 [("wait_time", ((wait_time / 4 : Nat) : ℚ))]

/-- The configuration `reduce_lr` actually produces. -/
def rlrConfig : ReduceLRConfig :=
  { monitor := "val_loss", factor := 1/10, patience := 10, verbose := 1,
    minDelta := 1/10000, cooldown := 0, minLr := 0 }

/-- The state of a ReduceLROnPlateau callback along a run. -/
structure PlateauState where
  best : Option ℚ
  wait : Nat
  cooldownCounter : Nat
  lr : ℚ
  deriving Repr, DecidableEq

/-- One epoch-end step of keras 2.x ReduceLROnPlateau in min mode
(`monitor_op a b = a < b - min_delta`): an active cooldown ticks down
and clears the wait counter; an improvement updates the best and clears
the wait counter; otherwise, outside cooldown, the wait counter
increments and, once it reaches the patience and the learning rate is
above min_lr, the learning rate becomes `max(lr * factor, min_lr)` and
cooldown starts. -/
def plateauStep (cfg : ReduceLRConfig) (s : PlateauState) (current : ℚ) :
    PlateauState :=
  let s := if 0 < s.cooldownCounter then
             { s with cooldownCounter := s.cooldownCounter - 1, wait := 0 }
           else s
  match s.best with
  | none => { s with best := some current, wait := 0 }
  | some b =>
      if current < b - cfg.minDelta then { s with best := some current, wait := 0 }
      else if s.cooldownCounter = 0 then
        let w := s.wait + 1
        if cfg.patience ≤ w then
          if cfg.minLr < s.lr then
            { s with wait := 0, cooldownCounter := cfg.cooldown,
                     lr := max (s.lr * cfg.factor) cfg.minLr }
          else { s with wait := w }
        else { s with wait := w }
      else s

/-- A callback in the `callback_list` of model.py lines 183-186. -/
inductive CallbackSpec : Type
  | modelCheckpoint (filepath monitor : String) (saveBestOnly : Bool)
  | csvLogger (filename : String) (append : Bool)
  | earlyStopping (monitor : String) (patience : Nat)
  | reduceLROnPlateau (cfg : ReduceLRConfig)
  deriving Repr, DecidableEq

def log_path : String := "logs/model_log.log"

def model_names : String := "model.best.hdf5"

/-- `str(Path('models/' + model_names))` (model.py line 181). -/
def model_path : String := "models/" ++ model_names

/-- The callback list of model.py lines 183-186; constructing
`reduce_lr` can in principle raise, which propagates. -/
def callback_list : Except String (List CallbackSpec) :=
  match reduce_lr with
  | Except.error e => Except.error e
  | Except.ok rlr =>
      Except.ok [CallbackSpec.modelCheckpoint model_path "val_loss" true,
                 CallbackSpec.csvLogger log_path false,
                 CallbackSpec.earlyStopping "val_loss" wait_time,
                 CallbackSpec.reduceLROnPlateau rlr]

/-! ## Augmentation, weight loading, and the whole script run
(model.py lines 66-73 and 159-196) -/

/-- The `ImageDataGenerator` configuration of model.py lines 67-73. -/
structure ImageDataGeneratorConfig where
  featurewiseCenter : Bool
  featurewiseStdNormalization : Bool
  rotationRange : ℚ
  widthShiftRange : ℚ
  heightShiftRange : ℚ
  zoomRange : ℚ
  horizontalFlip : Bool
  deriving Repr, DecidableEq

def datagen : ImageDataGeneratorConfig :=
  { featurewiseCenter := false, featurewiseStdNormalization := false,
    rotationRange := 10, widthShiftRange := 1/10, heightShiftRange := 1/10,
    zoomRange := 1/10, horizontalFlip := true }

/-- A data argument of `fit_generator`: either an augmenting generator
(`datagen.flow(xs, ys, batch_size)`) or raw arrays. -/
inductive DataSource (α : Type) : Type
  | generator (gen : ImageDataGeneratorConfig) (xs ys : α) (batchSize : Nat)
  | raw (xs ys : α)
  deriving Repr, DecidableEq

/-- The `model.fit_generator(...)` call of model.py lines 190-196. -/
structure FitCall (α : Type) where
  trainData : DataSource α
  stepsPerEpoch : ℚ
  epochs : Nat
  validationData : DataSource α
  callbacks : List CallbackSpec
  validationSteps : ℚ
  deriving Repr, DecidableEq

/-- The observable state the script has built when training starts. -/
structure ScriptState (α W : Type) where
  data : DataResult α
  layers : List LayerState
  weights : W
  loadedSavedModel : Bool
  fit : FitCall α

/-- The whole script up to the `fit_generator` call: prepare the data,
build the model, freeze the first ten layers when `fine_tune` is set,
try `model.load_weights('models/model.best.hdf5')` — modelled by
`loadWeightsResult`, `none` when the call raises — keeping the freshly
initialised weights `initWeights` on failure, build the callback list,
and assemble the fit call. -/
def scriptRun (env : DataEnv α) (initWeights : W)
    (loadWeightsResult : Option W) : Except String (ScriptState α W) :=
  let d := prepareData env
  let ls0 := initLayers model_layers
  let ls := if fine_tune then freezeFirst 10 ls0 else ls0
  let (w, ok) := match loadWeightsResult with
    | some w => (w, true)
    | none => (initWeights, false)
  match callback_list with
  | Except.error e => Except.error e
  | Except.ok cbs =>
   Except.ok
    { data := d, layers := ls, weights := w, loadedSavedModel := ok,
      fit :=
        { trainData := DataSource.generator datagen d.xTrain d.yTrain batch_size,
          stepsPerEpoch := (env.alen d.xTrain : ℚ) / (batch_size : ℚ),
          epochs := num_epochs,
          validationData := DataSource.raw d.xVal d.yVal,
          callbacks := cbs,
          validationSteps := (env.alen d.xVal : ℚ) / (batch_size : ℚ) } }

/-! ## Lemmas about the cache try/except -/

lemma tryLoadCache_isSome_iff {α : Type} (env : DataEnv α) :
    (tryLoadCache env).isSome ↔ allCacheLoadsOk env := by
  unfold tryLoadCache allCacheLoadsOk cachePaths
  cases h1 : env.npLoad "data/X_train.npy" <;>
    cases h2 : env.npLoad "data/Y_train.npy" <;>
      cases h3 : env.npLoad "data/X_val.npy" <;>
        cases h4 : env.npLoad "data/Y_val.npy" <;>
          cases h5 : env.npLoad "data/X_test.npy" <;>
            cases h6 : env.npLoad "data/Y_test.npy" <;>
              simp [h1, h2, h3, h4, h5, h6]

lemma tryLoadCache_eq_some {α : Type} (env : DataEnv α) {xt yt xv yv xs ys : α}
    (h1 : env.npLoad "data/X_train.npy" = some xt)
    (h2 : env.npLoad "data/Y_train.npy" = some yt)
    (h3 : env.npLoad "data/X_val.npy" = some xv)
    (h4 : env.npLoad "data/Y_val.npy" = some yv)
    (h5 : env.npLoad "data/X_test.npy" = some xs)
    (h6 : env.npLoad "data/Y_test.npy" = some ys) :
    tryLoadCache env = some (xt, yt, xv, yv, xs, ys) := by
  simp [tryLoadCache, h1, h2, h3, h4, h5, h6]

lemma tryLoadCache_eq_none {α : Type} (env : DataEnv α)
    (h : ¬ allCacheLoadsOk env) : tryLoadCache env = none := by
  have := (tryLoadCache_isSome_iff env).not.mpr h
  exact Option.not_isSome_iff_eq_none.mp this

lemma prepareData_of_cache_failure {α : Type} (env : DataEnv α)
    (h : ¬ allCacheLoadsOk env) :
    prepareData env = regenerateData env ∧
    (prepareData env).xTrain = (env.loadData "Training").1 ∧
    (prepareData env).yTrain = (env.loadData "Training").2 ∧
    (prepareData env).xVal = (env.loadData "PublicTest").1 ∧
    (prepareData env).yVal = (env.loadData "PublicTest").2 ∧
    (prepareData env).xTest = (env.loadData "PrivateTest").1 ∧
    (prepareData env).yTest = (env.loadData "PrivateTest").2 ∧
    (prepareData env).saved =
      [("train", (env.loadData "Training").1, (env.loadData "Training").2),
       ("val", (env.loadData "PublicTest").1, (env.loadData "PublicTest").2),
       ("test", (env.loadData "PrivateTest").1, (env.loadData "PrivateTest").2)] ∧
    (prepareData env).usedCache = false := by
  simp [prepareData, tryLoadCache_eq_none env h, regenerateData]

/-- A concrete environment in which all six cached files load. -/
def envAllOk : DataEnv Nat :=
  { npLoad := fun p =>
      if p = "data/X_train.npy" then some 1
      else if p = "data/Y_train.npy" then some 2
      else if p = "data/X_val.npy" then some 3
      else if p = "data/Y_val.npy" then some 4
      else if p = "data/X_test.npy" then some 5
      else if p = "data/Y_test.npy" then some 6
      else none,
    loadData := fun u =>
      if u = "Training" then (11, 12)
      else if u = "PublicTest" then (13, 14) else (15, 16),
    alen := fun _ => 64 }

/-- A concrete environment in which five cached files load and the
sixth (`Y_test`) raises. -/
def envBadYTest : DataEnv Nat :=
  { envAllOk with
    npLoad := fun p =>
      if p = "data/Y_test.npy" then none else envAllOk.npLoad p }

/-- C1: on a run where the six cached array files load, the script binds
exactly the cached arrays, calls no `save_data`, and never touches
`load_data`; when the cache is missing or corrupt (any load raises), all
three usage splits are reparsed via `utils.load_data` and the three
array pairs are re-saved. -/
theorem cache_contract (α : Type) (env : DataEnv α) :
    (∀ xt yt xv yv xs ys : α,
        env.npLoad "data/X_train.npy" = some xt →
        env.npLoad "data/Y_train.npy" = some yt →
        env.npLoad "data/X_val.npy" = some xv →
        env.npLoad "data/Y_val.npy" = some yv →
        env.npLoad "data/X_test.npy" = some xs →
        env.npLoad "data/Y_test.npy" = some ys →
        prepareData env =
          { xTrain := xt, yTrain := yt, xVal := xv, yVal := yv,
            xTest := xs, yTest := ys, saved := [], usedCache := true }) ∧
    (¬ allCacheLoadsOk env →
        prepareData env = regenerateData env ∧
        (prepareData env).xTrain = (env.loadData "Training").1 ∧
        (prepareData env).yTrain = (env.loadData "Training").2 ∧
        (prepareData env).xVal = (env.loadData "PublicTest").1 ∧
        (prepareData env).yVal = (env.loadData "PublicTest").2 ∧
        (prepareData env).xTest = (env.loadData "PrivateTest").1 ∧
        (prepareData env).yTest = (env.loadData "PrivateTest").2 ∧
        (prepareData env).saved =
          [("train", (env.loadData "Training").1, (env.loadData "Training").2),
           ("val", (env.loadData "PublicTest").1, (env.loadData "PublicTest").2),
           ("test", (env.loadData "PrivateTest").1, (env.loadData "PrivateTest").2)] ∧
        (prepareData env).usedCache = false) := by
  constructor
  · intro xt yt xv yv xs ys h1 h2 h3 h4 h5 h6
    simp [prepareData, tryLoadCache_eq_some env h1 h2 h3 h4 h5 h6]
  · exact prepareData_of_cache_failure env

/-- Witness for C1: a concrete all-loads-succeed run uses the cached
arrays, and a concrete one-load-fails run regenerates. -/
theorem cache_contract_witness :
    prepareData envAllOk =
      { xTrain := 1, yTrain := 2, xVal := 3, yVal := 4, xTest := 5, yTest := 6,
        saved := [], usedCache := true } ∧
    prepareData envBadYTest = regenerateData envBadYTest := by
  constructor
  · exact (cache_contract Nat envAllOk).1 1 2 3 4 5 6
      (by decide) (by decide) (by decide) (by decide) (by decide) (by decide)
  · exact ((cache_contract Nat envBadYTest).2 (by decide)).1

/-- C9: cache loading is all-or-nothing — if any single one of the six
cached files fails to load, every split is regenerated from the CSV and
all three array pairs are re-saved, regardless of which other files
loaded successfully. -/
theorem cache_all_or_nothing (α : Type) (env : DataEnv α) (p : String)
    (hp : p ∈ cachePaths) (h : env.npLoad p = none) :
    prepareData env = regenerateData env ∧
    (prepareData env).usedCache = false ∧
    (prepareData env).saved =
      [("train", (env.loadData "Training").1, (env.loadData "Training").2),
       ("val", (env.loadData "PublicTest").1, (env.loadData "PublicTest").2),
       ("test", (env.loadData "PrivateTest").1, (env.loadData "PrivateTest").2)] := by
  have hnot : ¬ allCacheLoadsOk env := by
    intro hall
    have := hall p hp
    rw [h] at this
    simp at this
  have hc := prepareData_of_cache_failure env hnot
  exact ⟨hc.1, hc.2.2.2.2.2.2.2.2, hc.2.2.2.2.2.2.2.1⟩

/-- Witness for C9: in `envBadYTest` five of the six loads succeed, yet
all three splits come from `load_data` and all are re-saved. -/
theorem cache_all_or_nothing_witness :
    ("data/Y_test.npy" ∈ cachePaths ∧
      envBadYTest.npLoad "data/X_train.npy" = some 1 ∧
      envBadYTest.npLoad "data/X_test.npy" = some 5) ∧
    (prepareData envBadYTest).saved =
      [("train", 11, 12), ("val", 13, 14), ("test", 15, 16)] := by
  refine ⟨⟨by decide, by decide, by decide⟩, ?_⟩
  have h := cache_all_or_nothing Nat envBadYTest "data/Y_test.npy"
    (by decide) (by decide)
  exact h.2.2.trans (by decide)

/-! ## Architecture and freezing lemmas -/

/-- C2: the constructed graph is exactly the composition the spec
states — two initial full convolutions each with batch normalization
and ReLU, four residual blocks (shortcut: strided 1×1 convolution plus
batch normalization; main: two depthwise-separable convolutions with
normalization, activation and max pooling; summed elementwise) at filter
widths 16, 32, 64, 128, then a final classification convolution, global
average pooling, and a softmax output. -/
theorem model_is_fixed_composition :
    modelGraph = specArchitecture 8 [16, 32, 64, 128] num_classes := by
  rfl

lemma freezeFirst_zero (ls : List LayerState) : freezeFirst 0 ls = ls := by
  simp [freezeFirst]

lemma freezeFirst_cons (k : Nat) (l : LayerState) (t : List LayerState) :
    freezeFirst (k + 1) (l :: t) =
      { l with trainable := false } :: freezeFirst k t := by
  simp [freezeFirst]

lemma freezeFirst_getD (d : LayerState) :
    ∀ (ls : List LayerState) (k i : Nat), i < ls.length →
      (freezeFirst k ls).getD i d =
        if i < k then
          { ls.getD i d with trainable := false }
        else ls.getD i d := by
  intro ls
  induction ls with
  | nil => intro k i h; simp at h
  | cons l t ih =>
    intro k i h
    cases k with
    | zero => simp [freezeFirst_zero]
    | succ k =>
      cases i with
      | zero => rw [freezeFirst_cons]; simp
      | succ i =>
        have h' : i < t.length := by simpa using h
        rw [freezeFirst_cons]
        simp only [List.getD_cons_succ]
        rw [ih k i h']
        simp [Nat.succ_lt_succ_iff]

lemma reduce_lr_eq : reduce_lr = Except.ok rlrConfig := by
  simp [reduce_lr, mkReduceLROnPlateau, rlrConfig, List.lookup]
  norm_num

lemma callback_list_eq :
    callback_list = Except.ok
      [CallbackSpec.modelCheckpoint model_path "val_loss" true,
       CallbackSpec.csvLogger log_path false,
       CallbackSpec.earlyStopping "val_loss" wait_time,
       CallbackSpec.reduceLROnPlateau rlrConfig] := by
  simp [callback_list, reduce_lr_eq]

lemma scriptRun_ok {α W : Type} (env : DataEnv α) (iw : W) (lw : Option W) :
    scriptRun env iw lw = Except.ok
      { data := prepareData env,
        layers := freezeFirst 10 (initLayers model_layers),
        weights := lw.getD iw,
        loadedSavedModel := lw.isSome,
        fit :=
          { trainData := DataSource.generator datagen (prepareData env).xTrain
              (prepareData env).yTrain batch_size,
            stepsPerEpoch := (env.alen (prepareData env).xTrain : ℚ) / (batch_size : ℚ),
            epochs := num_epochs,
            validationData := DataSource.raw (prepareData env).xVal (prepareData env).yVal,
            callbacks :=
              [CallbackSpec.modelCheckpoint model_path "val_loss" true,
               CallbackSpec.csvLogger log_path false,
               CallbackSpec.earlyStopping "val_loss" wait_time,
               CallbackSpec.reduceLROnPlateau rlrConfig],
            validationSteps := (env.alen (prepareData env).xVal : ℚ) / (batch_size : ℚ) } } := by
  cases lw <;> simp [scriptRun, callback_list_eq, fine_tune]

/-- C7: the fine-tuning variant (active, since `fine_tune` is set)
leaves the script with exactly the first ten layers of the model frozen:
for any layer list, freezing preserves every layer identity, makes the
layers at indices below ten non-trainable, and leaves the trainable
status of every other layer unchanged. -/
theorem fine_tune_freezes_exactly_first_ten (α W : Type) :
    (∀ (env : DataEnv α) (iw : W) (lw : Option W),
        ∃ s : ScriptState α W, scriptRun env iw lw = Except.ok s ∧
          s.layers = freezeFirst 10 (initLayers model_layers)) ∧
    (∀ (d : LayerState) (ls : List LayerState) (i : Nat), i < ls.length →
        ((freezeFirst 10 ls).getD i d).layer = (ls.getD i d).layer ∧
        ((freezeFirst 10 ls).getD i d).trainable =
          (if i < 10 then false else (ls.getD i d).trainable)) := by
  constructor
  · intro env iw lw
    exact ⟨_, scriptRun_ok env iw lw, rfl⟩
  · intro d ls i h
    rw [freezeFirst_getD d ls 10 i h]
    constructor
    · split <;> rfl
    · split <;> rfl

/-- Witness for C7: in the script's own 46-layer model, layer 3 ends up
frozen and layer 12 stays trainable. -/
theorem fine_tune_freeze_witness :
    (3 < (initLayers model_layers).length ∧
        12 < (initLayers model_layers).length) ∧
    ((freezeFirst 10 (initLayers model_layers)).getD 3
        { layer := Node.input (0, 0, 0), trainable := true }).trainable = false ∧
    ((freezeFirst 10 (initLayers model_layers)).getD 12
        { layer := Node.input (0, 0, 0), trainable := true }).trainable = true := by
  have h3 := (fine_tune_freezes_exactly_first_ten Nat Nat).2
    { layer := Node.input (0, 0, 0), trainable := true }
    (initLayers model_layers) 3 (by decide)
  have h12 := (fine_tune_freezes_exactly_first_ten Nat Nat).2
    { layer := Node.input (0, 0, 0), trainable := true }
    (initLayers model_layers) 12 (by decide)
  refine ⟨⟨by decide, by decide⟩, ?_, ?_⟩
  · rw [h3.2]; decide
  · rw [h12.2]; decide

/-- C10: `fine_tune` is hard-coded to true, so every run — in
particular a run whose weight-file load fails and therefore starts from
the freshly initialised weights — freezes the first ten layers before
training. -/
theorem fine_tune_hardcoded_freezes_fresh_runs (α W : Type) :
    fine_tune = true ∧
    (∀ (env : DataEnv α) (iw : W),
        ∃ s : ScriptState α W, scriptRun env iw none = Except.ok s ∧
          s.weights = iw ∧ s.loadedSavedModel = false ∧
          s.layers = freezeFirst 10 (initLayers model_layers) ∧
          (s.layers.take 10).all (fun l => !l.trainable) = true) := by
  refine ⟨rfl, ?_⟩
  intro env iw
  refine ⟨_, scriptRun_ok env iw none, rfl, rfl, rfl, ?_⟩
  show (((freezeFirst 10 (initLayers model_layers)).take 10).all
    (fun l => !l.trainable)) = true
  decide

/-- C8: when loading `models/model.best.hdf5` fails, the script
proceeds to train from scratch with the freshly initialised weights and
behaves otherwise exactly like a run whose load succeeded — the blanket
except clause is the only handling of the failure. -/
theorem weight_load_failure_trains_from_scratch (α W : Type)
    (env : DataEnv α) (iw : W) :
    ∃ s : ScriptState α W, scriptRun env iw none = Except.ok s ∧
      s.weights = iw ∧ s.loadedSavedModel = false ∧
      s.fit.epochs = num_epochs ∧
      ∀ w' : W, ∃ s' : ScriptState α W,
        scriptRun env iw (some w') = Except.ok s' ∧
        s'.weights = w' ∧ s'.data = s.data ∧ s'.layers = s.layers ∧
        s'.fit = s.fit := by
  refine ⟨_, scriptRun_ok env iw none, rfl, rfl, rfl, ?_⟩
  intro w'
  exact ⟨_, scriptRun_ok env iw (some w'), rfl, rfl, rfl, rfl⟩

/-- C6: training batches are drawn from the augmentation generator —
configured with rotation range 10, width and height shift 0.1, zoom 0.1
and horizontal flip, and with the featurewise options off — while the
validation data passed to the fit call is the raw validation arrays with
no generator in front of them. -/
theorem augmented_training_raw_validation (α W : Type) (env : DataEnv α)
    (iw : W) (lw : Option W) :
    ∃ s : ScriptState α W, scriptRun env iw lw = Except.ok s ∧
      s.fit.trainData = DataSource.generator datagen (prepareData env).xTrain
        (prepareData env).yTrain batch_size ∧
      datagen.rotationRange = 10 ∧
      datagen.widthShiftRange = 1/10 ∧
      datagen.heightShiftRange = 1/10 ∧
      datagen.zoomRange = 1/10 ∧
      datagen.horizontalFlip = true ∧
      datagen.featurewiseCenter = false ∧
      datagen.featurewiseStdNormalization = false ∧
      s.fit.validationData =
        DataSource.raw (prepareData env).xVal (prepareData env).yVal := by
  exact ⟨_, scriptRun_ok env iw lw, rfl, rfl, rfl, rfl, rfl, rfl, rfl, rfl, rfl⟩

/-! ## Checkpoint lemmas -/

lemma checkpointSaves_length (best : Option ℚ) (losses : List ℚ) :
    (checkpointSaves best losses).length = losses.length := by
  induction losses generalizing best with
  | nil => rfl
  | cons l ls ih => simp [checkpointSaves, ih]

lemma forall_lt_succ_cons (x l : ℚ) (ls : List ℚ) (i : Nat) :
    (∀ j : Nat, j < i + 1 → x < (l :: ls).getD j 0) ↔
      x < l ∧ ∀ j : Nat, j < i → x < ls.getD j 0 := by
  constructor
  · intro hall
    refine ⟨hall 0 (Nat.succ_pos i), fun j hj => ?_⟩
    have := hall (j + 1) (Nat.succ_lt_succ hj)
    simpa using this
  · rintro ⟨hl, hrest⟩ j hj
    cases j with
    | zero => simpa using hl
    | succ j => simpa using hrest j (Nat.lt_of_succ_lt_succ hj)

lemma checkpointStep_best (best : Option ℚ) (l x : ℚ) :
    (∀ b : ℚ, (checkpointStep best l).1 = some b → x < b) ↔
      ((∀ b : ℚ, best = some b → x < b) ∧ x < l) := by
  cases best with
  | none => simp [checkpointStep]
  | some b =>
    simp only [checkpointStep]
    split
    · rename_i hlt
      simp only [Option.some.injEq, forall_eq']
      constructor
      · intro h; exact ⟨h.trans hlt, h⟩
      · exact fun h => h.2
    · rename_i hge
      push_neg at hge
      simp only [Option.some.injEq, forall_eq']
      constructor
      · intro h; exact ⟨h, lt_of_lt_of_le h hge⟩
      · exact fun h => h.1

lemma checkpointSaves_getD (losses : List ℚ) :
    ∀ (best : Option ℚ) (i : Nat), i < losses.length →
      ((checkpointSaves best losses).getD i false = true ↔
        (∀ b : ℚ, best = some b → losses.getD i 0 < b) ∧
        ∀ j : Nat, j < i → losses.getD i 0 < losses.getD j 0) := by
  induction losses with
  | nil => intro best i h; simp at h
  | cons l ls ih =>
    intro best i h
    cases i with
    | zero =>
      cases best with
      | none => simp [checkpointSaves, checkpointStep]
      | some b =>
        simp only [checkpointSaves, checkpointStep, List.getD_cons_zero]
        split_ifs with hlt <;> simp [hlt]
    | succ i =>
      have h' : i < ls.length := by simpa using h
      simp only [checkpointSaves, List.getD_cons_succ]
      rw [ih (checkpointStep best l).1 i h']
      rw [checkpointStep_best best l (ls.getD i 0),
        forall_lt_succ_cons (ls.getD i 0) l ls i]
      tauto

/-- C3: the checkpoint callback — `ModelCheckpoint` on `val_loss` with
`save_best_only`, present in the script's callback list — writes the
weights snapshot after an epoch iff that epoch's validation loss
strictly improves on the best seen over all earlier epochs, and hence
never overwrites the snapshot on a non-improving epoch. -/
theorem checkpoint_saves_iff_improvement :
    (∀ (losses : List ℚ) (i : Nat), i < losses.length →
        ((checkpointSaves none losses).getD i false = true ↔
          ∀ j : Nat, j < i → losses.getD i 0 < losses.getD j 0)) ∧
    (∃ cbs, callback_list = Except.ok cbs ∧
        CallbackSpec.modelCheckpoint model_path "val_loss" true ∈ cbs) := by
  constructor
  · intro losses i h
    have := checkpointSaves_getD losses none i h
    simpa using this
  · exact ⟨_, callback_list_eq, by simp⟩

/-- Witness for C3: on the loss trace 3, 2, 5 the snapshot is written
after epoch 1 (an improvement) and not after epoch 2 (no improvement). -/
theorem checkpoint_saves_witness :
    (1 < ([3, 2, 5] : List ℚ).length ∧ 2 < ([3, 2, 5] : List ℚ).length) ∧
    (checkpointSaves none [3, 2, 5]).getD 1 false = true ∧
    (checkpointSaves none [3, 2, 5]).getD 2 false = false := by
  refine ⟨⟨by decide, by decide⟩, ?_, ?_⟩
  · refine (checkpoint_saves_iff_improvement.1 [3, 2, 5] 1 (by decide)).mpr ?_
    intro j hj
    have hj0 : j = 0 := by omega
    subst hj0
    decide
  · have h := checkpoint_saves_iff_improvement.1 [3, 2, 5] 2 (by decide)
    have hnot : ¬ ((checkpointSaves none [3, 2, 5]).getD 2 false = true) := by
      rw [h]
      push_neg
      exact ⟨0, by omega, by decide⟩
    simpa using hnot

/-! ## Early-stopping lemmas -/

lemma epochsFrom_le (p : Nat) (losses : Nat → ℚ) :
    ∀ (fuel e : Nat) (s : ESState), epochsFrom p losses e s fuel ≤ fuel := by
  intro fuel
  induction fuel with
  | zero => intro e s; simp [epochsFrom]
  | succ fuel ih =>
    intro e s
    simp only [epochsFrom]
    split
    · omega
    · have := ih (e + 1) (esStep p s (losses e)).1
      omega

lemma epochsFrom_stagnant (p : Nat) (losses : Nat → ℚ) (b : ℚ) :
    ∀ (fuel e w : Nat), w < p → (∀ j : Nat, e ≤ j → b ≤ losses j) →
      epochsFrom p losses e { best := some b, wait := w } fuel =
        min fuel (p - w) := by
  intro fuel
  induction fuel with
  | zero => intro e w hw hnb; simp [epochsFrom]
  | succ fuel ih =>
    intro e w hw hnb
    have hcur : ¬ losses e < b := not_lt.mpr (hnb e le_rfl)
    by_cases hstop : p ≤ w + 1
    · simp only [epochsFrom, esStep, hcur, if_false]
      simp [hstop]
      omega
    · simp only [epochsFrom, esStep, hcur, if_false]
      simp [hstop]
      rw [ih (e + 1) (w + 1) (by omega) (fun j hj => hnb j (by omega))]
      omega

lemma epochsFrom_improving (p : Nat) (losses : Nat → ℚ)
    (hdec : ∀ j : Nat, losses (j + 1) < losses j) :
    ∀ (fuel e : Nat),
      epochsFrom p losses (e + 1) { best := some (losses e), wait := 0 } fuel
        = fuel := by
  intro fuel
  induction fuel with
  | zero => intro e; rfl
  | succ fuel ih =>
    intro e
    have hcur : losses (e + 1) < losses e := hdec e
    simp only [epochsFrom, esStep, hcur, if_true]
    rw [if_neg Bool.false_ne_true, ih (e + 1)]
    omega

lemma epochsFrom_none_step (p : Nat) (losses : Nat → ℚ) (e fuel : Nat) :
    epochsFrom p losses e { best := none, wait := 0 } (fuel + 1) =
      1 + epochsFrom p losses (e + 1)
        { best := some (losses e), wait := 0 } fuel := by
  simp [epochsFrom, esStep]

lemma epochsFrom_unroll (p : Nat) (losses : Nat → ℚ) :
    ∀ (k fuel : Nat), k ≤ fuel →
      (∀ j : Nat, j < k → esStopFlag p losses j = false) →
      epochsFrom p losses 0 { best := none, wait := 0 } fuel =
        k + epochsFrom p losses k (esStateAfter p losses k) (fuel - k) := by
  intro k
  induction k with
  | zero => intro fuel _ _; simp [esStateAfter]
  | succ k ih =>
    intro fuel hk hflag
    rw [ih fuel (by omega) (fun j hj => hflag j (by omega))]
    have hfk : fuel - k = (fuel - (k + 1)) + 1 := by omega
    rw [hfk]
    have hf := hflag k (by omega)
    rw [esStopFlag] at hf
    simp only [epochsFrom]
    rw [hf, if_neg Bool.false_ne_true]
    have hstate : (esStep p (esStateAfter p losses k) (losses k)).1 =
        esStateAfter p losses (k + 1) := rfl
    rw [hstate]
    omega

/-- C4: EarlyStopping on val_loss with patience `wait_time = 50` halts
training at the close of a 50-epoch window with no validation-loss
improvement: once epoch k starts with a fresh best that no later epoch
beats, exactly 50 more epochs run; a run that improves every epoch runs
the full `num_epochs = 250`; no run exceeds 250 epochs.  The callback is
in the script's callback list with that patience. -/
theorem early_stopping_patience_window :
    wait_time = 50 ∧ num_epochs = 250 ∧
    (∀ losses : Nat → ℚ, epochsRun losses ≤ num_epochs) ∧
    (∀ (losses : Nat → ℚ) (k : Nat) (b : ℚ),
        esStateAfter wait_time losses k = { best := some b, wait := 0 } →
        (∀ j : Nat, j < k → esStopFlag wait_time losses j = false) →
        (∀ j : Nat, k ≤ j → b ≤ losses j) →
        k + wait_time ≤ num_epochs →
        epochsRun losses = k + wait_time) ∧
    (∀ losses : Nat → ℚ, (∀ j : Nat, losses (j + 1) < losses j) →
        epochsRun losses = num_epochs) ∧
    (∃ cbs, callback_list = Except.ok cbs ∧
        CallbackSpec.earlyStopping "val_loss" wait_time ∈ cbs) := by
  refine ⟨rfl, rfl, ?_, ?_, ?_, ⟨_, callback_list_eq, by simp⟩⟩
  · intro losses
    exact epochsFrom_le wait_time losses num_epochs 0 _
  · intro losses k b hstate hflag hnb hfit
    rw [epochsRun,
      epochsFrom_unroll wait_time losses k num_epochs (by omega) hflag,
      hstate,
      epochsFrom_stagnant wait_time losses b (num_epochs - k) k 0
        (by norm_num [wait_time]) hnb]
    have hmin : min (num_epochs - k) (wait_time - 0) = wait_time := by
      simp only [wait_time, num_epochs] at hfit ⊢
      omega
    rw [hmin]
  · intro losses hdec
    rw [epochsRun, show num_epochs = 249 + 1 from rfl, epochsFrom_none_step,
      epochsFrom_improving wait_time losses hdec 249 0]

/-- Witness for C4: with a constant validation loss the run stops after
51 epochs (the first epoch sets the best, then the 50-epoch patience
window elapses); with a strictly decreasing loss it runs all 250. -/
theorem early_stopping_witness :
    epochsRun (fun _ => (1 : ℚ)) = 51 ∧
    epochsRun (fun n => -(n : ℚ)) = 250 := by
  constructor
  · have h := early_stopping_patience_window.2.2.2.1 (fun _ => (1 : ℚ)) 1 1
      (by rfl)
      (by intro j hj
          have hj0 : j = 0 := by omega
          subst hj0
          rfl)
      (fun j _ => le_refl 1)
      (by norm_num [wait_time, num_epochs])
    exact h.trans (by norm_num [wait_time])
  · have h := early_stopping_patience_window.2.2.2.2.1 (fun n => -(n : ℚ))
      (by intro j
          push_cast
          linarith)
    exact h.trans rfl

/-- C5: the plateau callback is configured successfully — the keras 2.x
constructor drops the stray `wait_time` keyword argument, yielding the
config `rlrConfig` with the script-level decay factor 0.1 (and the
default patience of 10) — it is in the callback list the fit call uses,
and once its patience window of epochs without sufficient improvement
elapses it multiplies the learning rate by the factor. -/
theorem plateau_reduces_lr :
    reduce_lr = Except.ok rlrConfig ∧
    rlrConfig.factor = 1/10 ∧
    (∃ cbs, callback_list = Except.ok cbs ∧
        CallbackSpec.reduceLROnPlateau rlrConfig ∈ cbs) ∧
    (∀ (s : PlateauState) (current b : ℚ),
        s.best = some b →
        ¬ current < b - rlrConfig.minDelta →
        s.cooldownCounter = 0 →
        rlrConfig.patience ≤ s.wait + 1 →
        0 < s.lr →
        (plateauStep rlrConfig s current).lr = s.lr * rlrConfig.factor) := by
  refine ⟨reduce_lr_eq, rfl, ⟨_, callback_list_eq, by simp⟩, ?_⟩
  intro s current b hb hni hcd hpat hlr
  obtain ⟨sb, sw, scd, slr⟩ := s
  simp only at hb hcd hpat hlr
  subst hb
  subst hcd
  have hminlr : rlrConfig.minLr < slr := hlr
  simp [plateauStep, hni, hpat, hminlr]
  simp only [rlrConfig]
  positivity

/-- Witness for C5: a concrete stalled state at learning rate 1 and wait
counter 9 has its learning rate cut to 1/10 by the next stalled epoch. -/
theorem plateau_reduces_lr_witness :
    (plateauStep rlrConfig
        { best := some 1, wait := 9, cooldownCounter := 0, lr := 1 } 1).lr
      = 1/10 := by
  have h := plateau_reduces_lr.2.2.2
    { best := some 1, wait := 9, cooldownCounter := 0, lr := 1 } 1 1
    rfl (by norm_num [rlrConfig]) rfl (by norm_num [rlrConfig]) (by norm_num)
  rw [h]
  norm_num [rlrConfig]

end ExpressionID
